import Mathlib

/-!
Shallow embedding of `base_external_referentials/reference.py`.

The Python module implements a registry of `Reference` objects (one per
(service, version) backend) each holding sets of capability implementations
(mappers, one binder, synchronizers, backend adapters) together with an
optional parent reference used as a fallback during resolution.

Modelling decisions:
* Python objects live on a heap; we model the heap as a list of `Reference`
  records indexed by `RefId` (object identity = index), so that mutation of a
  parent is visible through the child's `parent` pointer, as in Python.
* Capability implementations are classes in Python; we model them as an
  `Impl` record carrying an identity (`id`, standing for Python object
  identity used by set membership), the `issubclass` facts used by the
  decorator (`isBinder`, ...), and the duck-typed `match` class methods of
  each capability kind.
* Python `set` containers are modelled as duplicate-free lists; membership is
  by `Impl.id` (object identity). Iteration order of a Python set is
  unspecified; the list order stands for one such order.
* Exceptions are modelled with `Except PyError`; `PyError` distinguishes the
  exception classes the module can raise (`ValueError`, `TypeError`,
  `KeyError` from `set.remove`, `AttributeError` from `None.service`, and
  the `UnboundLocalError` reachable in `get_binder`).
* Recursion through parent pointers is not structural on the heap, so the
  resolution functions take a fuel parameter; exhausted fuel is reported as
  `recursionError` (Python would raise `RecursionError` on a cyclic chain).
  All theorems quantify over, or supply, sufficient fuel.
-/

/-- Identity of a heap-allocated `Reference` object: its index in the store. -/
abbrev RefId := Nat

/-- Exception kinds raised by the code in `reference.py`. -/
inductive PyError where
  | valueError (msg : String)
  | typeError
  | keyError
  | attributeError
  | unboundLocal
  | recursionError
deriving DecidableEq, Repr

/-- A capability implementation (a Python class passed to the registration
API).  `id` models object identity; the four Booleans model the
`issubclass(cls, Binder / Synchronizer / Mapper / BackendAdapter)` tests of
`Reference.__call__`; the three functions model the kind-specific `match`
class methods invoked during resolution (`Mapper.match(model, direction,
child_of)`, `Synchronizer.match(synchro_type, model)`,
`BackendAdapter.match(model)`). -/
structure Impl where
  id : Nat
  isBinder : Bool := false
  isSynchronizer : Bool := false
  isMapper : Bool := false
  isBackendAdapter : Bool := false
  matchMapper : String → String → Option String → Bool := fun _ _ _ => false
  matchSync : String → String → Bool := fun _ _ => false
  matchAdapter : String → Bool := fun _ => false

/-- The fields of a `Reference` object (`Reference.__init__`):
`service` is `_service` (optional), `version` optional, `parent` an optional
pointer to another reference, then the four capability containers. -/
structure Reference where
  service : Option String
  version : Option String
  parent : Option RefId
  mappers : List Impl
  binder : Option Impl
  synchronizers : List Impl
  backendAdapters : List Impl

/-- The heap of `Reference` objects. -/
abbrev Store := List Reference

/-- Process state: the heap plus the `REFERENCES` registry
(`ReferenceRegistry.references`, a set of references, modelled as a
duplicate-free list of heap ids). -/
structure World where
  store : Store
  references : List RefId

/-- The state at process start: no references allocated, empty registry. -/
def emptyWorld : World := { store := [], references := [] }

/-- Membership test used for the modelled Python sets of `Impl` (Python
compares classes by identity, i.e. by `Impl.id`). -/
def implMem (l : List Impl) (m : Impl) : Bool :=
  l.any (fun x => x.id == m.id)

/-- Python `set.add`: no-op when an element with the same identity is already
present, otherwise insert. -/
def setAdd (l : List Impl) (m : Impl) : List Impl :=
  if implMem l m then l else l ++ [m]

/-- Python `set.remove`: raises `KeyError` when the element is absent,
otherwise removes it (a Python set holds no duplicates, so removing by
identity removes every occurrence in the list model). -/
def setRemove (l : List Impl) (m : Impl) : Except PyError (List Impl) :=
  if implMem l m then .ok (l.filter (fun x => !(x.id == m.id))) else .error .keyError

/-- Replace the object at id `r` in the store (Python attribute mutation on
one object).  An id not in the store leaves it unchanged (cannot happen for
ids allocated by `mkReference`). -/
def updateAt (st : Store) (r : RefId) (f : Reference → Reference) : Store :=
  match st[r]? with
  | none => st
  | some d => st.set r (f d)

/-- `ReferenceRegistry.register_reference`: `self.references.add(reference)`,
set semantics (idempotent). -/
def register_reference (refs : List RefId) (n : RefId) : List RefId :=
  if refs.contains n then refs else refs ++ [n]

/-- `Reference.__init__(service=None, version=None, parent=None,
registry=None)`: raises `ValueError` when both `service` and `parent` are
`None`; otherwise allocates the object with empty capability containers and
registers it into the registry (the default global `REFERENCES` is the
`World`'s registry). -/
def mkReference (service version : Option String) (parent : Option RefId)
    (w : World) : Except PyError (World × RefId) :=
  if service.isNone && parent.isNone then
    .error (.valueError "A service or a parent service is expected")
  else
    let n := w.store.length
    let d : Reference :=
      { service := service, version := version, parent := parent,
        mappers := [], binder := none, synchronizers := [], backendAdapters := [] }
    .ok ({ store := w.store ++ [d], references := register_reference w.references n }, n)

/-- The `Reference.service` property: `self._service or self.parent.service`.
A falsy `_service` (Python `None` or the empty string) delegates to the
parent; when the parent is `None` the attribute access raises
`AttributeError`. -/
def serviceProp : Nat → Store → RefId → Except PyError String
  | 0, _, _ => .error .recursionError
  | Nat.succ fuel, st, r =>
    match st[r]? with
    | none => .error .attributeError
    | some d =>
      match d.service with
      | some s =>
        if s == "" then
          match d.parent with
          | none => .error .attributeError
          | some p => serviceProp fuel st p
        else .ok s
      | none =>
        match d.parent with
        | none => .error .attributeError
        | some p => serviceProp fuel st p

/-- `Reference.match(service, version)`: `self.service == service and
self.version == version`.  Reading `self.service` may raise. -/
def matchRef (fuel : Nat) (st : Store) (r : RefId) (service : String)
    (version : Option String) : Except PyError Bool :=
  match st[r]? with
  | none => .error .attributeError
  | some d => do
    let s ← serviceProp fuel st r
    .ok (s == service && d.version == version)

/-- `Reference.__str__`: formats `self.service` (which may raise) and, when
`self.version` is truthy, the version. -/
def strRef (fuel : Nat) (st : Store) (r : RefId) : Except PyError String :=
  match st[r]? with
  | none => .error .attributeError
  | some d => do
    let s ← serviceProp fuel st r
    match d.version with
    | some v =>
      if v == "" then .ok ("Reference(" ++ s ++ ")>")
      else .ok ("Reference(" ++ s ++ ", " ++ v ++ ")")
    | none => .ok ("Reference(" ++ s ++ ")>")

/-- Scan of `ReferenceRegistry.get_reference`: return the first registered
reference whose `match(service, version)` is true; raise `ValueError` when
none matches.  An exception from `match` propagates. -/
def get_reference_scan (fuel : Nat) (st : Store) :
    List RefId → String → Option String → Except PyError RefId
  | [], _, _ => .error (.valueError "No reference found")
  | r :: rest, s, v => do
    let b ← matchRef fuel st r s v
    if b then .ok r else get_reference_scan fuel st rest s v

/-- `get_reference(service, version)` on the module-level `REFERENCES`
registry. -/
def get_reference (fuel : Nat) (w : World) (s : String) (v : Option String) :
    Except PyError RefId :=
  get_reference_scan fuel w.store w.references s v

/-- `Reference.get_mapper(model, direction, child_of=None)`: look for a local
mapper whose `match` accepts; when none and a parent exists, delegate; a
`None` coming back from the parent raises `ValueError` (formatting the
message reads `self.service` via `__str__`, which may itself raise); with no
parent the miss returns `None`. -/
def get_mapper : Nat → Store → RefId → String → String → Option String →
    Except PyError (Option Impl)
  | 0, _, _, _, _, _ => .error .recursionError
  | Nat.succ fuel, st, r, model, direction, childOf =>
    match st[r]? with
    | none => .error .attributeError
    | some d =>
      match d.mappers.find? (fun m => m.matchMapper model direction childOf) with
      | some m => .ok (some m)
      | none =>
        match d.parent with
        | none => .ok none
        | some p =>
          match get_mapper fuel st p model direction childOf with
          | .error e => .error e
          | .ok (some m) => .ok (some m)
          | .ok none =>
            match strRef (Nat.succ fuel) st r with
            | .error e => .error e
            | .ok _ => .error (.valueError "No matching mapper found")

/-- `Reference.get_synchronizer(synchro_type, model)`: same shape as
`get_mapper` with the synchronizer `match` predicate. -/
def get_synchronizer : Nat → Store → RefId → String → String →
    Except PyError (Option Impl)
  | 0, _, _, _, _ => .error .recursionError
  | Nat.succ fuel, st, r, synchroType, model =>
    match st[r]? with
    | none => .error .attributeError
    | some d =>
      match d.synchronizers.find? (fun s => s.matchSync synchroType model) with
      | some s => .ok (some s)
      | none =>
        match d.parent with
        | none => .ok none
        | some p =>
          match get_synchronizer fuel st p synchroType model with
          | .error e => .error e
          | .ok (some s) => .ok (some s)
          | .ok none =>
            match strRef (Nat.succ fuel) st r with
            | .error e => .error e
            | .ok _ => .error (.valueError "No matching synchronizer found")

/-- `Reference.get_backend_adapter(model)`: same shape as `get_mapper` with
the adapter `match` predicate. -/
def get_backend_adapter : Nat → Store → RefId → String →
    Except PyError (Option Impl)
  | 0, _, _, _ => .error .recursionError
  | Nat.succ fuel, st, r, model =>
    match st[r]? with
    | none => .error .attributeError
    | some d =>
      match d.backendAdapters.find? (fun a => a.matchAdapter model) with
      | some a => .ok (some a)
      | none =>
        match d.parent with
        | none => .ok none
        | some p =>
          match get_backend_adapter fuel st p model with
          | .error e => .error e
          | .ok (some a) => .ok (some a)
          | .ok none =>
            match strRef (Nat.succ fuel) st r with
            | .error e => .error e
            | .ok _ => .error (.valueError "No matching backend adapter found")

/-- `Reference.get_binder(model)`: returns `self._binder` when set (a
registered class is always truthy), else delegates to the parent when there
is one.  With neither, the local variable `binder` is read before any
assignment, so Python raises `UnboundLocalError`; the subsequent
`if binder is None: raise ValueError` line is unreachable in that branch,
and on the parent branch the recursive call never returns `None` (it returns
a registered class or raises), so that check is dead code here as well. -/
def get_binder : Nat → Store → RefId → String → Except PyError Impl
  | 0, _, _, _ => .error .recursionError
  | Nat.succ fuel, st, r, model =>
    match st[r]? with
    | none => .error .attributeError
    | some d =>
      match d.binder with
      | some b => .ok b
      | none =>
        match d.parent with
        | some p => get_binder fuel st p model
        | none => .error .unboundLocal

/-- `Reference.register_binder(binder)`: overwrite the singleton slot. -/
def register_binder (st : Store) (r : RefId) (b : Impl) : Store :=
  updateAt st r (fun d => { d with binder := some b })

/-- `Reference.register_synchronizer(synchronizer)`: `set.add`. -/
def register_synchronizer (st : Store) (r : RefId) (s : Impl) : Store :=
  updateAt st r (fun d => { d with synchronizers := setAdd d.synchronizers s })

/-- `Reference.register_mapper(mapper)`: `set.add`. -/
def register_mapper (st : Store) (r : RefId) (m : Impl) : Store :=
  updateAt st r (fun d => { d with mappers := setAdd d.mappers m })

/-- `Reference.register_backend_adapter(adapter)`: `set.add`. -/
def register_backend_adapter (st : Store) (r : RefId) (a : Impl) : Store :=
  updateAt st r (fun d => { d with backendAdapters := setAdd d.backendAdapters a })

/-- `Reference.unregister_synchronizer(synchronizer)`: `set.remove` (raises
`KeyError` when absent). -/
def unregister_synchronizer (st : Store) (r : RefId) (s : Impl) :
    Except PyError Store :=
  match st[r]? with
  | none => .error .attributeError
  | some d =>
    match setRemove d.synchronizers s with
    | .error e => .error e
    | .ok l => .ok (st.set r { d with synchronizers := l })

/-- `Reference.unregister_mapper(mapper)`: `set.remove`. -/
def unregister_mapper (st : Store) (r : RefId) (m : Impl) :
    Except PyError Store :=
  match st[r]? with
  | none => .error .attributeError
  | some d =>
    match setRemove d.mappers m with
    | .error e => .error e
    | .ok l => .ok (st.set r { d with mappers := l })

/-- `Reference.unregister_backend_adapter(adapter)`: `set.remove`. -/
def unregister_backend_adapter (st : Store) (r : RefId) (a : Impl) :
    Except PyError Store :=
  match st[r]? with
  | none => .error .attributeError
  | some d =>
    match setRemove d.backendAdapters a with
    | .error e => .error e
    | .ok l => .ok (st.set r { d with backendAdapters := l })

/-- `Reference.__call__(cls)` (the registration decorator): classify the
class by the first `issubclass` test that succeeds, in the order Binder,
Synchronizer, Mapper, BackendAdapter; register it accordingly and return the
class unchanged; raise `TypeError` when none applies. -/
def reference_call (st : Store) (r : RefId) (cls : Impl) :
    Except PyError (Store × Impl) :=
  if cls.isBinder then .ok (register_binder st r cls, cls)
  else if cls.isSynchronizer then .ok (register_synchronizer st r cls, cls)
  else if cls.isMapper then .ok (register_mapper st r cls, cls)
  else if cls.isBackendAdapter then .ok (register_backend_adapter st r cls, cls)
  else .error .typeError

/-! ### Generic helpers -/

/-- Does an `Except` computation raise (model of a Python call raising an
exception)? -/
def raisesError {α : Type} : Except PyError α → Bool
  | .error _ => true
  | .ok _ => false

theorem raisesError_iff {α : Type} (x : Except PyError α) :
    raisesError x = true ↔ ∃ e, x = Except.error e := by
  cases x with
  | error e => simp [raisesError]
  | ok a => simp [raisesError]

/-! ### Claim C1: parent fallback for mappers -/

/-- The spec's parent-fallback scenario, executed with the embedded
operations: `parent = Reference('svc')`, `child = Reference(parent=parent,
version='2.0')`, then `parent.register_mapper(m)`. -/
def c1_setup (m : Impl) : Except PyError (World × RefId × RefId) :=
  match mkReference (some "svc") none none emptyWorld with
  | .error e => .error e
  | .ok (w1, p) =>
    match mkReference none (some "2.0") (some p) w1 with
    | .error e => .error e
    | .ok (w2, c) => .ok ({ w2 with store := register_mapper w2.store p m }, p, c)

/-- The state `c1_setup` reaches: parent at id 0 holding the mapper, child at
id 1 pointing at it, both registered. -/
def c1_world (m : Impl) : World :=
  { store :=
      [{ service := some "svc", version := none, parent := none,
         mappers := [m], binder := none, synchronizers := [], backendAdapters := [] },
       { service := none, version := some "2.0", parent := some 0,
         mappers := [], binder := none, synchronizers := [], backendAdapters := [] }],
    references := [0, 1] }

/-- Claim C1: with a parent reference for service svc and a child constructed
with that parent and no service of its own, registering a mapper only on the
parent makes `child.get_mapper(model, direction)` return that same mapper,
for every `(model, direction)` the mapper's `match` predicate accepts. -/
theorem C1_parent_fallback (m : Impl) (model direction : String)
    (h : m.matchMapper model direction none = true) :
    c1_setup m = Except.ok (c1_world m, 0, 1) ∧
    get_mapper 2 (c1_world m).store 1 model direction none = Except.ok (some m) := by
  refine ⟨rfl, ?_⟩
  simp [c1_world, get_mapper, List.find?_cons, h]

/-- Concrete run of `C1_parent_fallback`: a mapper accepting every argument,
looked up for model res.partner, direction export. -/
theorem C1_parent_fallback_witness :
    c1_setup { id := 7, isMapper := true, matchMapper := fun _ _ _ => true } =
      Except.ok
        (c1_world { id := 7, isMapper := true, matchMapper := fun _ _ _ => true }, 0, 1) ∧
    get_mapper 2
        (c1_world { id := 7, isMapper := true, matchMapper := fun _ _ _ => true }).store 1
        "res.partner" "export" none =
      Except.ok (some { id := 7, isMapper := true, matchMapper := fun _ _ _ => true }) :=
  C1_parent_fallback { id := 7, isMapper := true, matchMapper := fun _ _ _ => true }
    "res.partner" "export" rfl

/-! ### Claim C2: child registration shadows the parent -/

/-- Shadowing scenario: the C1 construction followed by
`child.register_mapper(mc)` (`mp` goes to the parent, `mc` to the child). -/
def c2_setup (mp mc : Impl) : Except PyError (World × RefId × RefId) :=
  match mkReference (some "svc") none none emptyWorld with
  | .error e => .error e
  | .ok (w1, p) =>
    match mkReference none (some "2.0") (some p) w1 with
    | .error e => .error e
    | .ok (w2, c) =>
      .ok ({ w2 with store := register_mapper (register_mapper w2.store p mp) c mc }, p, c)

/-- The state `c2_setup` reaches. -/
def c2_world (mp mc : Impl) : World :=
  { store :=
      [{ service := some "svc", version := none, parent := none,
         mappers := [mp], binder := none, synchronizers := [], backendAdapters := [] },
       { service := none, version := some "2.0", parent := some 0,
         mappers := [mc], binder := none, synchronizers := [], backendAdapters := [] }],
    references := [0, 1] }

/-- Claim C2: with one mapper on the parent and one on the child, both
matching the same `(model, direction)`, the child resolves to its own mapper
while the parent still resolves to its own; the two results differ. -/
theorem C2_shadowing (mp mc : Impl) (model direction : String)
    (hp : mp.matchMapper model direction none = true)
    (hc : mc.matchMapper model direction none = true)
    (hne : mc ≠ mp) :
    c2_setup mp mc = Except.ok (c2_world mp mc, 0, 1) ∧
    get_mapper 2 (c2_world mp mc).store 1 model direction none = Except.ok (some mc) ∧
    get_mapper 2 (c2_world mp mc).store 0 model direction none = Except.ok (some mp) ∧
    get_mapper 2 (c2_world mp mc).store 1 model direction none ≠
      get_mapper 2 (c2_world mp mc).store 0 model direction none := by
  refine ⟨rfl, ?_, ?_, ?_⟩ <;>
    simp [c2_world, get_mapper, List.find?_cons, hp, hc, hne]

/-- Concrete run of `C2_shadowing` with distinct always-matching mappers. -/
theorem C2_shadowing_witness :
    c2_setup { id := 1, isMapper := true, matchMapper := fun _ _ _ => true }
        { id := 2, isMapper := true, matchMapper := fun _ _ _ => true } =
      Except.ok
        (c2_world { id := 1, isMapper := true, matchMapper := fun _ _ _ => true }
          { id := 2, isMapper := true, matchMapper := fun _ _ _ => true }, 0, 1) ∧
    get_mapper 2
        (c2_world { id := 1, isMapper := true, matchMapper := fun _ _ _ => true }
          { id := 2, isMapper := true, matchMapper := fun _ _ _ => true }).store 1
        "res.partner" "export" none =
      Except.ok (some { id := 2, isMapper := true, matchMapper := fun _ _ _ => true }) ∧
    get_mapper 2
        (c2_world { id := 1, isMapper := true, matchMapper := fun _ _ _ => true }
          { id := 2, isMapper := true, matchMapper := fun _ _ _ => true }).store 0
        "res.partner" "export" none =
      Except.ok (some { id := 1, isMapper := true, matchMapper := fun _ _ _ => true }) ∧
    get_mapper 2
        (c2_world { id := 1, isMapper := true, matchMapper := fun _ _ _ => true }
          { id := 2, isMapper := true, matchMapper := fun _ _ _ => true }).store 1
        "res.partner" "export" none ≠
      get_mapper 2
        (c2_world { id := 1, isMapper := true, matchMapper := fun _ _ _ => true }
          { id := 2, isMapper := true, matchMapper := fun _ _ _ => true }).store 0
        "res.partner" "export" none :=
  C2_shadowing { id := 1, isMapper := true, matchMapper := fun _ _ _ => true }
    { id := 2, isMapper := true, matchMapper := fun _ _ _ => true }
    "res.partner" "export" rfl rfl
    (fun hEq => absurd (congrArg Impl.id hEq) (by decide))

/-! ### Claim C3: exhausted lookups -/

/-- A parentless reference with empty capability containers. -/
def c3_lone : Reference :=
  { service := some "svc", version := some "1.0", parent := none,
    mappers := [], binder := none, synchronizers := [], backendAdapters := [] }

/-- Claim C3 is false as stated: a reference without a parent whose containers
have no match does NOT raise from `get_mapper` / `get_synchronizer` /
`get_backend_adapter`; all three return the absent value (Python `None`),
because the raise is only reachable under `if mapper is None and self.parent`. -/
theorem C3_counterexample :
    get_mapper 1 [c3_lone] 0 "res.partner" "export" none = Except.ok none ∧
    get_synchronizer 1 [c3_lone] 0 "import" "res.partner" = Except.ok none ∧
    get_backend_adapter 1 [c3_lone] 0 "res.partner" = Except.ok none :=
  ⟨rfl, rfl, rfl⟩

/-- Hypothesis of the amended claim: no mapper anywhere on the parent chain
starting at `r` (within `fuel` steps) matches `(model, direction, childOf)`. -/
def no_mapper_in_chain : Nat → Store → RefId → String → String → Option String → Bool
  | 0, _, _, _, _, _ => false
  | Nat.succ fuel, st, r, model, direction, childOf =>
    match st[r]? with
    | none => false
    | some d =>
      d.mappers.all (fun m => !(m.matchMapper model direction childOf)) &&
      (match d.parent with
       | none => true
       | some p => no_mapper_in_chain fuel st p model direction childOf)

/-- Hypothesis of the amended claim, synchronizer kind. -/
def no_synchronizer_in_chain : Nat → Store → RefId → String → String → Bool
  | 0, _, _, _, _ => false
  | Nat.succ fuel, st, r, synchroType, model =>
    match st[r]? with
    | none => false
    | some d =>
      d.synchronizers.all (fun s => !(s.matchSync synchroType model)) &&
      (match d.parent with
       | none => true
       | some p => no_synchronizer_in_chain fuel st p synchroType model)

/-- Hypothesis of the amended claim, backend-adapter kind. -/
def no_backend_adapter_in_chain : Nat → Store → RefId → String → Bool
  | 0, _, _, _ => false
  | Nat.succ fuel, st, r, model =>
    match st[r]? with
    | none => false
    | some d =>
      d.backendAdapters.all (fun a => !(a.matchAdapter model)) &&
      (match d.parent with
       | none => true
       | some p => no_backend_adapter_in_chain fuel st p model)

theorem get_mapper_no_match (st : Store) (model direction : String)
    (childOf : Option String) :
    ∀ (fuel : Nat) (r : RefId),
      no_mapper_in_chain fuel st r model direction childOf = true →
      ∀ m : Impl, get_mapper fuel st r model direction childOf ≠ Except.ok (some m) := by
  intro fuel
  induction fuel with
  | zero => intro r h; simp [no_mapper_in_chain] at h
  | succ fuel ih =>
    intro r h m hcontra
    cases hr : st[r]? with
    | none => rw [no_mapper_in_chain, hr] at h; simp at h
    | some d =>
      rw [no_mapper_in_chain, hr] at h
      simp only [Bool.and_eq_true, List.all_eq_true] at h
      obtain ⟨hall, hpar⟩ := h
      have hfind : d.mappers.find? (fun m => m.matchMapper model direction childOf) = none := by
        apply List.find?_eq_none.mpr
        intro x hx
        simpa using hall x hx
      rw [get_mapper, hr] at hcontra
      simp only [hfind] at hcontra
      cases hp : d.parent with
      | none => rw [hp] at hcontra; simp at hcontra
      | some p =>
        simp only [hp] at hcontra hpar
        cases hrec : get_mapper fuel st p model direction childOf with
        | error e => rw [hrec] at hcontra; simp at hcontra
        | ok o =>
          cases o with
          | none =>
            rw [hrec] at hcontra
            cases hs : strRef (Nat.succ fuel) st r with
            | error e => rw [hs] at hcontra; simp at hcontra
            | ok s => rw [hs] at hcontra; simp at hcontra
          | some mm => exact ih p hpar mm hrec

theorem get_synchronizer_no_match (st : Store) (synchroType model : String) :
    ∀ (fuel : Nat) (r : RefId),
      no_synchronizer_in_chain fuel st r synchroType model = true →
      ∀ s : Impl, get_synchronizer fuel st r synchroType model ≠ Except.ok (some s) := by
  intro fuel
  induction fuel with
  | zero => intro r h; simp [no_synchronizer_in_chain] at h
  | succ fuel ih =>
    intro r h s hcontra
    cases hr : st[r]? with
    | none => rw [no_synchronizer_in_chain, hr] at h; simp at h
    | some d =>
      rw [no_synchronizer_in_chain, hr] at h
      simp only [Bool.and_eq_true, List.all_eq_true] at h
      obtain ⟨hall, hpar⟩ := h
      have hfind : d.synchronizers.find? (fun x => x.matchSync synchroType model) = none := by
        apply List.find?_eq_none.mpr
        intro x hx
        simpa using hall x hx
      rw [get_synchronizer, hr] at hcontra
      simp only [hfind] at hcontra
      cases hp : d.parent with
      | none => rw [hp] at hcontra; simp at hcontra
      | some p =>
        simp only [hp] at hcontra hpar
        cases hrec : get_synchronizer fuel st p synchroType model with
        | error e => rw [hrec] at hcontra; simp at hcontra
        | ok o =>
          cases o with
          | none =>
            rw [hrec] at hcontra
            cases hs : strRef (Nat.succ fuel) st r with
            | error e => rw [hs] at hcontra; simp at hcontra
            | ok str => rw [hs] at hcontra; simp at hcontra
          | some ss => exact ih p hpar ss hrec

theorem get_backend_adapter_no_match (st : Store) (model : String) :
    ∀ (fuel : Nat) (r : RefId),
      no_backend_adapter_in_chain fuel st r model = true →
      ∀ a : Impl, get_backend_adapter fuel st r model ≠ Except.ok (some a) := by
  intro fuel
  induction fuel with
  | zero => intro r h; simp [no_backend_adapter_in_chain] at h
  | succ fuel ih =>
    intro r h a hcontra
    cases hr : st[r]? with
    | none => rw [no_backend_adapter_in_chain, hr] at h; simp at h
    | some d =>
      rw [no_backend_adapter_in_chain, hr] at h
      simp only [Bool.and_eq_true, List.all_eq_true] at h
      obtain ⟨hall, hpar⟩ := h
      have hfind : d.backendAdapters.find? (fun x => x.matchAdapter model) = none := by
        apply List.find?_eq_none.mpr
        intro x hx
        simpa using hall x hx
      rw [get_backend_adapter, hr] at hcontra
      simp only [hfind] at hcontra
      cases hp : d.parent with
      | none => rw [hp] at hcontra; simp at hcontra
      | some p =>
        simp only [hp] at hcontra hpar
        cases hrec : get_backend_adapter fuel st p model with
        | error e => rw [hrec] at hcontra; simp at hcontra
        | ok o =>
          cases o with
          | none =>
            rw [hrec] at hcontra
            cases hs : strRef (Nat.succ fuel) st r with
            | error e => rw [hs] at hcontra; simp at hcontra
            | ok str => rw [hs] at hcontra; simp at hcontra
          | some aa => exact ih p hpar aa hrec

/-- Claim C3 amended: the raise-on-exhaustion guarantee holds only for
references that HAVE a parent: when a reference with a parent finds no
matching implementation anywhere along its chain, `get_mapper`,
`get_synchronizer` and `get_backend_adapter` raise (normally the
NotFoundError-kind `ValueError`; `AttributeError` when formatting the error
message hits an unresolvable `service`).  A parentless reference instead
returns the absent value, as `C3_counterexample` shows. -/
theorem C3_amended (fuel : Nat) (st : Store) (r : RefId) (d : Reference) (p : RefId)
    (model direction synchroType : String) (childOf : Option String)
    (h1 : st[r]? = some d) (h2 : d.parent = some p)
    (hm : no_mapper_in_chain (Nat.succ fuel) st r model direction childOf = true)
    (hs : no_synchronizer_in_chain (Nat.succ fuel) st r synchroType model = true)
    (ha : no_backend_adapter_in_chain (Nat.succ fuel) st r model = true) :
    raisesError (get_mapper (Nat.succ fuel) st r model direction childOf) = true ∧
    raisesError (get_synchronizer (Nat.succ fuel) st r synchroType model) = true ∧
    raisesError (get_backend_adapter (Nat.succ fuel) st r model) = true := by
  refine ⟨?_, ?_, ?_⟩
  · rw [raisesError_iff]
    rw [no_mapper_in_chain, h1] at hm
    simp only [Bool.and_eq_true, List.all_eq_true] at hm
    obtain ⟨hall, hpar⟩ := hm
    simp only [h2] at hpar
    have hfind : d.mappers.find? (fun m => m.matchMapper model direction childOf) = none := by
      apply List.find?_eq_none.mpr
      intro x hx
      simpa using hall x hx
    cases hrec : get_mapper fuel st p model direction childOf with
    | error e => exact ⟨e, by simp only [get_mapper, h1, hfind, h2, hrec]⟩
    | ok o =>
      cases o with
      | some mm =>
        exact absurd hrec (get_mapper_no_match st model direction childOf fuel p hpar mm)
      | none =>
        cases hstr : strRef (Nat.succ fuel) st r with
        | error e => exact ⟨e, by simp only [get_mapper, h1, hfind, h2, hrec, hstr]⟩
        | ok str =>
          exact ⟨PyError.valueError "No matching mapper found",
            by simp only [get_mapper, h1, hfind, h2, hrec, hstr]⟩
  · rw [raisesError_iff]
    rw [no_synchronizer_in_chain, h1] at hs
    simp only [Bool.and_eq_true, List.all_eq_true] at hs
    obtain ⟨hall, hpar⟩ := hs
    simp only [h2] at hpar
    have hfind : d.synchronizers.find? (fun x => x.matchSync synchroType model) = none := by
      apply List.find?_eq_none.mpr
      intro x hx
      simpa using hall x hx
    cases hrec : get_synchronizer fuel st p synchroType model with
    | error e => exact ⟨e, by simp only [get_synchronizer, h1, hfind, h2, hrec]⟩
    | ok o =>
      cases o with
      | some ss =>
        exact absurd hrec (get_synchronizer_no_match st synchroType model fuel p hpar ss)
      | none =>
        cases hstr : strRef (Nat.succ fuel) st r with
        | error e => exact ⟨e, by simp only [get_synchronizer, h1, hfind, h2, hrec, hstr]⟩
        | ok str =>
          exact ⟨PyError.valueError "No matching synchronizer found",
            by simp only [get_synchronizer, h1, hfind, h2, hrec, hstr]⟩
  · rw [raisesError_iff]
    rw [no_backend_adapter_in_chain, h1] at ha
    simp only [Bool.and_eq_true, List.all_eq_true] at ha
    obtain ⟨hall, hpar⟩ := ha
    simp only [h2] at hpar
    have hfind : d.backendAdapters.find? (fun x => x.matchAdapter model) = none := by
      apply List.find?_eq_none.mpr
      intro x hx
      simpa using hall x hx
    cases hrec : get_backend_adapter fuel st p model with
    | error e => exact ⟨e, by simp only [get_backend_adapter, h1, hfind, h2, hrec]⟩
    | ok o =>
      cases o with
      | some aa =>
        exact absurd hrec (get_backend_adapter_no_match st model fuel p hpar aa)
      | none =>
        cases hstr : strRef (Nat.succ fuel) st r with
        | error e => exact ⟨e, by simp only [get_backend_adapter, h1, hfind, h2, hrec, hstr]⟩
        | ok str =>
          exact ⟨PyError.valueError "No matching backend adapter found",
            by simp only [get_backend_adapter, h1, hfind, h2, hrec, hstr]⟩

/-- Parent node for the C3 witness chain. -/
def c3_wparent : Reference :=
  { service := some "svc", version := none, parent := none,
    mappers := [], binder := none, synchronizers := [], backendAdapters := [] }

/-- Child node for the C3 witness chain, pointing at `c3_wparent`. -/
def c3_wchild : Reference :=
  { service := none, version := some "2.0", parent := some 0,
    mappers := [], binder := none, synchronizers := [], backendAdapters := [] }

/-- Concrete run of `C3_amended` on a two-node chain with empty containers. -/
theorem C3_amended_witness :
    raisesError (get_mapper 2 [c3_wparent, c3_wchild] 1 "res.partner" "export" none) = true ∧
    raisesError (get_synchronizer 2 [c3_wparent, c3_wchild] 1 "import" "res.partner") = true ∧
    raisesError (get_backend_adapter 2 [c3_wparent, c3_wchild] 1 "res.partner") = true :=
  C3_amended 1 [c3_wparent, c3_wchild] 1 c3_wchild 0 "res.partner" "export" "import" none
    rfl rfl rfl rfl rfl

/-! ### Claim C4: binder lookup with no binder and no parent -/

/-- A parentless reference with no registered binder. -/
def c4_lone : Reference :=
  { service := some "svc", version := none, parent := none,
    mappers := [], binder := none, synchronizers := [], backendAdapters := [] }

/-- Claim C4 is false as stated: with no locally registered binder and no
parent, `get_binder` does not return the absent value; the local variable
`binder` is read without ever being assigned, so the call raises
(Python `UnboundLocalError`). -/
theorem C4_counterexample :
    get_binder 1 [c4_lone] 0 "res.partner" = Except.error PyError.unboundLocal :=
  rfl

/-- Claim C4 amended: for every reference with no locally registered binder
and no parent, `get_binder(model)` raises an UnboundLocalError-kind failure
(the unset local `binder` is read), for every model argument. -/
theorem C4_amended (fuel : Nat) (st : Store) (r : RefId) (d : Reference) (model : String)
    (h1 : st[r]? = some d) (h2 : d.binder = none) (h3 : d.parent = none) :
    get_binder (Nat.succ fuel) st r model = Except.error PyError.unboundLocal := by
  simp only [get_binder, h1, h2, h3]

/-- Concrete run of `C4_amended`. -/
theorem C4_amended_witness :
    get_binder 2 [c4_lone] 0 "product.product" = Except.error PyError.unboundLocal :=
  C4_amended 1 [c4_lone] 0 c4_lone "product.product" rfl rfl rfl

/-! ### Claim C5: construction registers the reference -/

/-- The object freshly allocated by `Reference(service=s, version=v)`. -/
def c5_new (s : String) (v : Option String) : Reference :=
  { service := some s, version := v, parent := none,
    mappers := [], binder := none, synchronizers := [], backendAdapters := [] }

/-- Claim C5 is false as stated for the empty service string: construction of
`Reference(service='', version='1.0')` succeeds and registers the instance,
but `get_reference('', '1.0')` then raises `AttributeError` (the `service`
property treats the falsy empty string as unset and reads
`None.service`) instead of returning the instance. -/
theorem C5_counterexample :
    mkReference (some "") (some "1.0") none emptyWorld =
      Except.ok ({ store := [c5_new "" (some "1.0")], references := [0] }, 0) ∧
    get_reference 2 { store := [c5_new "" (some "1.0")], references := [0] }
        "" (some "1.0") =
      Except.error PyError.attributeError :=
  ⟨rfl, rfl⟩

theorem get_reference_scan_skip (fuel : Nat) (st : Store) (s : String) (v : Option String) :
    ∀ (refs : List RefId),
      (∀ i ∈ refs, matchRef fuel st i s v = Except.ok false) →
      ∀ rest, get_reference_scan fuel st (refs ++ rest) s v =
        get_reference_scan fuel st rest s v := by
  intro refs
  induction refs with
  | nil => intro _ rest; rfl
  | cons a l ih =>
    intro h rest
    have ha := h a (List.mem_cons_self a l)
    rw [List.cons_append, get_reference_scan, ha]
    exact ih (fun i hi => h i (List.mem_cons_of_mem a hi)) rest

/-- Claim C5 amended: for every NON-EMPTY service string `s` and version `v`,
immediately after `Reference(service=s, version=v)` is constructed against a
registry whose other members all fail `match(s, v)` (returning false rather
than raising), `get_reference(s, v)` returns the id of that exact
instance — which the extended store holds at that id. -/
theorem C5_amended (w : World) (s : String) (v : Option String) (fuel : Nat)
    (hs : s ≠ "")
    (hwf : ∀ i ∈ w.references, i < w.store.length)
    (hnm : ∀ i ∈ w.references,
      matchRef (Nat.succ fuel) (w.store ++ [c5_new s v]) i s v = Except.ok false) :
    mkReference (some s) v none w =
      Except.ok ({ store := w.store ++ [c5_new s v],
                   references := w.references ++ [w.store.length] }, w.store.length) ∧
    get_reference (Nat.succ fuel)
        { store := w.store ++ [c5_new s v],
          references := w.references ++ [w.store.length] } s v =
      Except.ok w.store.length ∧
    (w.store ++ [c5_new s v])[w.store.length]? = some (c5_new s v) := by
  have hcon : w.references.contains w.store.length = false := by
    rw [List.contains_eq_any_beq, List.any_eq_false]
    intro i hi hbeq
    rw [beq_iff_eq] at hbeq
    subst hbeq
    exact absurd (hwf _ hi) (Nat.lt_irrefl _)
  have hget : (w.store ++ [c5_new s v])[w.store.length]? = some (c5_new s v) :=
    List.getElem?_concat_length _ _
  refine ⟨?_, ?_, hget⟩
  · simp only [mkReference, Option.isNone_some, Option.isNone_none, Bool.false_and,
      Bool.and_false, if_neg, register_reference, hcon, c5_new]
    rfl
  · have hserv : serviceProp (Nat.succ fuel) (w.store ++ [c5_new s v]) w.store.length =
        Except.ok s := by
      rw [serviceProp, hget]
      simp [c5_new, hs]
    have hmatch : matchRef (Nat.succ fuel) (w.store ++ [c5_new s v]) w.store.length s v =
        Except.ok true := by
      rw [matchRef, hget, hserv]
      show Except.ok (s == s && (c5_new s v).version == v) = Except.ok true
      simp [c5_new]
    rw [get_reference, get_reference_scan_skip (Nat.succ fuel) _ s v w.references hnm,
      get_reference_scan, hmatch]
    rfl

/-- Concrete run of `C5_amended` on the empty registry. -/
theorem C5_amended_witness :
    mkReference (some "magento") (some "1.7") none emptyWorld =
      Except.ok ({ store := emptyWorld.store ++ [c5_new "magento" (some "1.7")],
                   references := emptyWorld.references ++ [emptyWorld.store.length] },
        emptyWorld.store.length) ∧
    get_reference 1
        { store := emptyWorld.store ++ [c5_new "magento" (some "1.7")],
          references := emptyWorld.references ++ [emptyWorld.store.length] }
        "magento" (some "1.7") =
      Except.ok emptyWorld.store.length ∧
    (emptyWorld.store ++ [c5_new "magento" (some "1.7")])[emptyWorld.store.length]? =
      some (c5_new "magento" (some "1.7")) :=
  C5_amended emptyWorld "magento" (some "1.7") 0 (by decide)
    (fun i hi => absurd hi (List.not_mem_nil i))
    (fun i hi => absurd hi (List.not_mem_nil i))

/-! ### Claim C6: constructor validation -/

/-- The record `Reference.__init__` allocates (empty capability containers). -/
def freshReference (service version : Option String) (parent : Option RefId) : Reference :=
  { service := service, version := version, parent := parent,
    mappers := [], binder := none, synchronizers := [], backendAdapters := [] }

/-- Claim C6: constructing a `Reference` with neither an explicit service nor
a parent raises the ConfigurationError-kind `ValueError`; supplying a
service, a parent, or both makes construction succeed. -/
theorem C6_construction (w : World) (s s2 : String) (v v2 v3 v4 : Option String) (p p2 : RefId) :
    mkReference none v none w =
      Except.error (PyError.valueError "A service or a parent service is expected") ∧
    mkReference (some s) v2 none w =
      Except.ok ({ store := w.store ++ [freshReference (some s) v2 none],
                   references := register_reference w.references w.store.length },
        w.store.length) ∧
    mkReference none v3 (some p) w =
      Except.ok ({ store := w.store ++ [freshReference none v3 (some p)],
                   references := register_reference w.references w.store.length },
        w.store.length) ∧
    mkReference (some s2) v4 (some p2) w =
      Except.ok ({ store := w.store ++ [freshReference (some s2) v4 (some p2)],
                   references := register_reference w.references w.store.length },
        w.store.length) :=
  ⟨rfl, rfl, rfl, rfl⟩

/-! ### Claim C7: the registration decorator -/

/-- Helper facts about the modelled Python sets. -/
theorem implMem_setAdd (l : List Impl) (m : Impl) : implMem (setAdd l m) m = true := by
  rw [setAdd]
  cases h : implMem l m with
  | true => simp [h]
  | false => simp [implMem, List.any_append]

theorem implMem_filter_self (l : List Impl) (m : Impl) :
    implMem (l.filter (fun x => !(x.id == m.id))) m = false := by
  rw [implMem, List.any_filter]
  simp

/-- Claim C7: applying the reference decorator to a class implementing only
the Binder capability registers it so that `get_binder` subsequently returns
it, and the decorator returns the class unchanged; applying it to a class
implementing none of the four capability kinds raises `TypeError`. -/
theorem C7_classification (st : Store) (r : RefId) (d : Reference) (cls bad : Impl)
    (model : String) (fuel : Nat)
    (hd : st[r]? = some d)
    (h1 : cls.isBinder = true) (_h2 : cls.isSynchronizer = false)
    (_h3 : cls.isMapper = false) (_h4 : cls.isBackendAdapter = false)
    (b1 : bad.isBinder = false) (b2 : bad.isSynchronizer = false)
    (b3 : bad.isMapper = false) (b4 : bad.isBackendAdapter = false) :
    reference_call st r cls = Except.ok (register_binder st r cls, cls) ∧
    get_binder (Nat.succ fuel) (register_binder st r cls) r model = Except.ok cls ∧
    reference_call st r bad = Except.error PyError.typeError := by
  refine ⟨?_, ?_, ?_⟩
  · simp [reference_call, h1]
  · have hset : (register_binder st r cls)[r]? = some { d with binder := some cls } := by
      rw [register_binder, updateAt]
      simp only [hd]
      rw [List.getElem?_set_self', hd]
      rfl
    simp only [get_binder, hset]
  · simp [reference_call, b1, b2, b3, b4]

/-- The lone reference used by the C7 witness. -/
def c7_ref : Reference :=
  { service := some "svc", version := none, parent := none,
    mappers := [], binder := none, synchronizers := [], backendAdapters := [] }

/-- Concrete run of `C7_classification`: a Binder-only class is registered
and resolved; a class with no capability raises `TypeError`. -/
theorem C7_classification_witness :
    reference_call [c7_ref] 0 { id := 1, isBinder := true } =
      Except.ok (register_binder [c7_ref] 0 { id := 1, isBinder := true },
        { id := 1, isBinder := true }) ∧
    get_binder 1 (register_binder [c7_ref] 0 { id := 1, isBinder := true }) 0 "res.partner" =
      Except.ok { id := 1, isBinder := true } ∧
    reference_call [c7_ref] 0 { id := 2 } = Except.error PyError.typeError :=
  C7_classification [c7_ref] 0 c7_ref { id := 1, isBinder := true } { id := 2 }
    "res.partner" 0 rfl rfl rfl rfl rfl rfl rfl rfl rfl

/-! ### Claim C8: register/unregister round trip for mappers -/

/-- Claim C8: `register_mapper(m)` followed by `unregister_mapper(m)` leaves
the reference's mapper set without `m` (the updated entry holds the filtered
set, whose membership test for `m` is false), and a second
`unregister_mapper(m)` raises the LookupError-kind `KeyError`. -/
theorem C8_round_trip (st : Store) (r : RefId) (d : Reference) (m : Impl)
    (hd : st[r]? = some d) :
    unregister_mapper (register_mapper st r m) r m =
      Except.ok ((st.set r { d with mappers := setAdd d.mappers m }).set r
        { d with mappers := (setAdd d.mappers m).filter (fun x => !(x.id == m.id)) }) ∧
    implMem ((setAdd d.mappers m).filter (fun x => !(x.id == m.id))) m = false ∧
    ((st.set r { d with mappers := setAdd d.mappers m }).set r
        { d with mappers := (setAdd d.mappers m).filter (fun x => !(x.id == m.id)) })[r]? =
      some { d with mappers := (setAdd d.mappers m).filter (fun x => !(x.id == m.id)) } ∧
    unregister_mapper ((st.set r { d with mappers := setAdd d.mappers m }).set r
        { d with mappers := (setAdd d.mappers m).filter (fun x => !(x.id == m.id)) }) r m =
      Except.error PyError.keyError := by
  have hget1 : (st.set r { d with mappers := setAdd d.mappers m })[r]? =
      some { d with mappers := setAdd d.mappers m } := by
    rw [List.getElem?_set_self', hd]
    rfl
  have hget2 : ((st.set r { d with mappers := setAdd d.mappers m }).set r
      { d with mappers := (setAdd d.mappers m).filter (fun x => !(x.id == m.id)) })[r]? =
      some { d with mappers := (setAdd d.mappers m).filter (fun x => !(x.id == m.id)) } := by
    rw [List.getElem?_set_self', hget1]
    rfl
  have hreg : register_mapper st r m = st.set r { d with mappers := setAdd d.mappers m } := by
    rw [register_mapper, updateAt]
    simp only [hd]
  refine ⟨?_, implMem_filter_self _ _, hget2, ?_⟩
  · rw [hreg, unregister_mapper]
    simp only [hget1]
    rw [setRemove]
    simp only [implMem_setAdd]
    rfl
  · rw [unregister_mapper]
    simp only [hget2]
    rw [setRemove]
    simp only [implMem_filter_self]
    rfl

/-- The lone reference used by the C8 witness. -/
def c8_ref : Reference :=
  { service := some "svc", version := none, parent := none,
    mappers := [], binder := none, synchronizers := [], backendAdapters := [] }

/-- The mapper registered and removed by the C8 witness. -/
def c8_m : Impl := { id := 5 }

/-- The C8 witness reference after registration. -/
def c8_added : Reference := { c8_ref with mappers := setAdd c8_ref.mappers c8_m }

/-- The C8 witness reference after removal. -/
def c8_removed : Reference :=
  { c8_ref with mappers := (setAdd c8_ref.mappers c8_m).filter (fun x => !(x.id == c8_m.id)) }

/-- Concrete run of `C8_round_trip` on an initially empty mapper set. -/
theorem C8_round_trip_witness :
    unregister_mapper (register_mapper [c8_ref] 0 c8_m) 0 c8_m =
      Except.ok (([c8_ref].set 0 c8_added).set 0 c8_removed) ∧
    implMem ((setAdd c8_ref.mappers c8_m).filter (fun x => !(x.id == c8_m.id))) c8_m = false ∧
    (([c8_ref].set 0 c8_added).set 0 c8_removed)[0]? = some c8_removed ∧
    unregister_mapper (([c8_ref].set 0 c8_added).set 0 c8_removed) 0 c8_m =
      Except.error PyError.keyError :=
  C8_round_trip [c8_ref] 0 c8_ref c8_m rfl

/-! ### Claim C9: frame effect of capability registration -/

/-- Claim C9: `register_mapper` on reference `r` changes only `r`'s mapper
set (adding the mapper via set-insertion); the record update leaves `r`'s
service, version, parent, binder and the other capability sets unchanged,
and every other reference in the store is untouched.  The analogous facts
hold for `register_synchronizer` and `register_backend_adapter`. -/
theorem C9_frame (st : Store) (r r2 : RefId) (m s a : Impl) (d : Reference)
    (hne : r2 ≠ r) (hd : st[r]? = some d) :
    (register_mapper st r m)[r2]? = st[r2]? ∧
    (register_mapper st r m)[r]? = some { d with mappers := setAdd d.mappers m } ∧
    (register_synchronizer st r s)[r2]? = st[r2]? ∧
    (register_synchronizer st r s)[r]? =
      some { d with synchronizers := setAdd d.synchronizers s } ∧
    (register_backend_adapter st r a)[r2]? = st[r2]? ∧
    (register_backend_adapter st r a)[r]? =
      some { d with backendAdapters := setAdd d.backendAdapters a } := by
  have hm : register_mapper st r m = st.set r { d with mappers := setAdd d.mappers m } := by
    rw [register_mapper, updateAt]; simp only [hd]
  have hsy : register_synchronizer st r s =
      st.set r { d with synchronizers := setAdd d.synchronizers s } := by
    rw [register_synchronizer, updateAt]; simp only [hd]
  have hba : register_backend_adapter st r a =
      st.set r { d with backendAdapters := setAdd d.backendAdapters a } := by
    rw [register_backend_adapter, updateAt]; simp only [hd]
  refine ⟨?_, ?_, ?_, ?_, ?_, ?_⟩ <;>
    first
    | (rw [hm, List.getElem?_set_ne (Ne.symm hne)])
    | (rw [hm, List.getElem?_set_self', hd]; rfl)
    | (rw [hsy, List.getElem?_set_ne (Ne.symm hne)])
    | (rw [hsy, List.getElem?_set_self', hd]; rfl)
    | (rw [hba, List.getElem?_set_ne (Ne.symm hne)])
    | (rw [hba, List.getElem?_set_self', hd]; rfl)

/-- First reference of the C9 witness store (the registration target). -/
def c9_a : Reference :=
  { service := some "svc", version := none, parent := none,
    mappers := [], binder := none, synchronizers := [], backendAdapters := [] }

/-- Second reference of the C9 witness store (must stay untouched). -/
def c9_b : Reference :=
  { service := some "other", version := some "1.0", parent := none,
    mappers := [], binder := none, synchronizers := [], backendAdapters := [] }

/-- Concrete run of `C9_frame` on a two-reference store. -/
theorem C9_frame_witness :
    (register_mapper [c9_a, c9_b] 0 { id := 3 })[1]? = [c9_a, c9_b][1]? ∧
    (register_mapper [c9_a, c9_b] 0 { id := 3 })[0]? =
      some { c9_a with mappers := setAdd c9_a.mappers { id := 3 } } ∧
    (register_synchronizer [c9_a, c9_b] 0 { id := 4 })[1]? = [c9_a, c9_b][1]? ∧
    (register_synchronizer [c9_a, c9_b] 0 { id := 4 })[0]? =
      some { c9_a with synchronizers := setAdd c9_a.synchronizers { id := 4 } } ∧
    (register_backend_adapter [c9_a, c9_b] 0 { id := 5 })[1]? = [c9_a, c9_b][1]? ∧
    (register_backend_adapter [c9_a, c9_b] 0 { id := 5 })[0]? =
      some { c9_a with backendAdapters := setAdd c9_a.backendAdapters { id := 5 } } :=
  C9_frame [c9_a, c9_b] 0 1 { id := 3 } { id := 4 } { id := 5 } c9_a (by decide) rfl

/-! ### Claim C10: the empty-string service edge case -/

/-- Claim C10: a `Reference` constructed with `service=''` and no parent is
accepted by the constructor (only a `None` service is rejected), but every
subsequent read of its `service` property raises `AttributeError`: the
property treats the falsy empty string as unset and reads `.service` on the
non-existent (`None`) parent.  Consequently `match` — the predicate every
`get_reference` lookup applies to it — and `__str__` raise as well, and a
registry scan that reaches the reference propagates the error, as the last
conjunct shows for the registry just after the construction. -/
theorem C10_empty_service (w : World) (v : Option String) (s2 : String) (v2 : Option String)
    (fuel : Nat) :
    mkReference (some "") v none w =
      Except.ok ({ store := w.store ++ [freshReference (some "") v none],
                   references := register_reference w.references w.store.length },
        w.store.length) ∧
    serviceProp (Nat.succ fuel) (w.store ++ [freshReference (some "") v none])
        w.store.length =
      Except.error PyError.attributeError ∧
    matchRef (Nat.succ fuel) (w.store ++ [freshReference (some "") v none])
        w.store.length s2 v2 =
      Except.error PyError.attributeError ∧
    strRef (Nat.succ fuel) (w.store ++ [freshReference (some "") v none])
        w.store.length =
      Except.error PyError.attributeError ∧
    get_reference (Nat.succ fuel)
        { store := [freshReference (some "") v none], references := [0] } s2 v2 =
      Except.error PyError.attributeError := by
  have hget : (w.store ++ [freshReference (some "") v none])[w.store.length]? =
      some (freshReference (some "") v none) :=
    List.getElem?_concat_length _ _
  have hserv : serviceProp (Nat.succ fuel) (w.store ++ [freshReference (some "") v none])
      w.store.length = Except.error PyError.attributeError := by
    rw [serviceProp, hget]
    rfl
  have hserv0 : serviceProp (Nat.succ fuel) [freshReference (some "") v none] 0 =
      Except.error PyError.attributeError := by
    rw [serviceProp]
    rfl
  refine ⟨rfl, hserv, ?_, ?_, ?_⟩
  · rw [matchRef, hget, hserv]
    rfl
  · rw [strRef, hget, hserv]
    rfl
  · rw [get_reference, get_reference_scan, matchRef, hserv0]
    rfl
